import Mathlib

/-!
Verification development for the SIPRI military-spending normalization
pipeline (`src/venv/src/Sipri.py`).

The embedding starts from the point in `Sheet.get_df` right after
`pd.read_excel`, `transpose`, `drop(skip_columns)` and `fix_header`:
at that point the frame has one column per reporting entity (the column
names come from the original first column of the tab) plus the leading
column holding the year labels of each data row.  That frame is modelled
as a `WideSheet`: a list of entity names and a list of data rows, each
row carrying its year label and one cell per entity.

Machine floats are modelled by `PyFloat` (a rational, an infinity, or
NaN); a spreadsheet cell is either a float (`Cell.num`, with
`Cell.num .nan` standing for an empty cell, which pandas reads as NaN)
or a string.  A string cell records, alongside its text, the result of
Python `float(s)` on that text — `none` when `float` raises
`ValueError` — since that parse is the only property of the text the
pipeline inspects besides equality with literal sentinels.  Likewise a
string year label records the result of `pd.to_numeric` on it.
-/

inductive PyFloat where
| fin (q : ℚ)
| pinf
| ninf
| nan
deriving DecidableEq, Repr

namespace PyFloat

def isnan : PyFloat → Bool
| .nan => true
| _ => false

def isFinite : PyFloat → Bool
| .fin _ => true
| _ => false

/-- IEEE-754 subtraction as performed by pandas on float64 values. -/
def sub : PyFloat → PyFloat → PyFloat
| .nan, _ => .nan
| _, .nan => .nan
| .fin a, .fin b => .fin (a - b)
| .fin _, .pinf => .ninf
| .fin _, .ninf => .pinf
| .pinf, .pinf => .nan
| .pinf, _ => .pinf
| .ninf, .ninf => .nan
| .ninf, _ => .ninf

/-- Division by the positive constant 1000 (`item / 1000`). -/
def divByThousand : PyFloat → PyFloat
| .fin q => .fin (q / 1000)
| f => f

end PyFloat

/-- A raw budget cell of the wide frame.  A string cell carries the
result of Python `float` applied to its text (`none` = `ValueError`). -/
inductive Cell where
| num (f : PyFloat)
| str (s : String) (p : Option PyFloat)
deriving DecidableEq, Repr

namespace Cell

/-- Whether pandas `dropna` treats the cell as missing. -/
def isNa : Cell → Bool
| .num .nan => true
| _ => false

/-- The elementwise comparison `cell == "xxx"` as pandas evaluates it:
true only for the exact sentinel string. -/
def eqXXX : Cell → Bool
| .str s _ => s == "xxx"
| _ => false

end Cell

/-- A year label of the wide frame (one per data row).  A string label
carries the result of `pd.to_numeric` on its text (`none` = raises). -/
inductive YearLabel where
| int (n : ℤ)
| str (s : String) (p : Option ℤ)
deriving DecidableEq, Repr

namespace YearLabel

/-- The elementwise comparison `label == "2020 Current"`: true only for
that exact string (an integer label never equals a string). -/
def isCurrent : YearLabel → Bool
| .str s _ => s == "2020 Current"
| _ => false

/-- `pd.to_numeric` on a single label: an integer label is already
numeric; a string label parses or raises. -/
def toNumeric : YearLabel → Option ℤ
| .int n => some n
| .str _ p => p

end YearLabel

/-- One row of the melted (long-form) frame before budget cleaning:
columns `{location_type, Year, Budget}` of `Sipri.py` line 20. -/
structure RawRecord where
  entity : String
  year : YearLabel
  cell : Cell
deriving DecidableEq, Repr

/-- A long-form row after `fix_budget` (budget coerced to float64). -/
structure BRecord where
  entity : String
  year : YearLabel
  budget : PyFloat
deriving DecidableEq, Repr

/-- A row of the normalized table (after `fix_year`): integer year,
float64 budget where `PyFloat.nan` is the missing-value marker. -/
structure NRecord where
  entity : String
  year : ℤ
  budget : PyFloat
deriving DecidableEq, Repr

/-- The wide frame reaching `melt`: one column per entity, one data row
per original year column, each row holding its year label and its cells
aligned with `entities`. -/
structure WideSheet where
  entities : List String
  rows : List (YearLabel × List Cell)
deriving DecidableEq, Repr

namespace Sheet

/-- `df.melt(id_vars=location_type, value_name='Budget')` followed by the
rename on line 20: stacks the frame column by column, producing for each
entity column and each data row one `(entity, year-label, cell)` row. -/
def melt (w : WideSheet) : List RawRecord :=
  w.entities.enum.flatMap fun ie =>
    w.rows.map fun row => ⟨ie.2, row.1, row.2.getD ie.1 (Cell.num .nan)⟩

/-- `df.dropna()` on the melted frame: drops every row with a missing
value.  Entity names and year labels of the wide frame are modelled as
present, so only NaN budget cells are dropped. -/
def dropna (df : List RawRecord) : List RawRecord :=
  df.filter fun r => !r.cell.isNa

/-- The `living_countries` list of `Sheet.remove_dead_countries`
(line 39): entities having a row with `Year == 2020` and
`Budget != "xxx"`. -/
def living_of (df : List RawRecord) : List String :=
  (df.filter fun r =>
    r.year == YearLabel.int 2020 && !r.cell.eqXXX).map fun r => r.entity

/-- `Sheet.remove_dead_countries` (lines 38-41): keep only the rows of
living entities. -/
def remove_dead_countries (df : List RawRecord) : List RawRecord :=
  df.filter fun r => decide (r.entity ∈ living_of df)

/-- `Sheet.clean_budget` (lines 43-50) combined with the
`.astype('float64')` on line 35.  `float(item)` is the identity on a
float cell and the recorded parse on a string cell; a `ValueError`
yields `None` and a NaN yields `None`, and `astype('float64')` turns
`None` back into NaN — so the net effect is: the parsed float, with NaN
for unparseable strings. -/
def clean_budget : Cell → PyFloat
| .num f => f
| .str _ p => p.getD .nan

/-- `Sheet.fix_budget` (lines 32-36): `dropna`, survivorship filter,
then budget coercion. -/
def fix_budget (df : List RawRecord) : List BRecord :=
  (remove_dead_countries (dropna df)).map fun r =>
    ⟨r.entity, r.year, clean_budget r.cell⟩

/-- `Sheet.fix_year` (lines 52-55): drop the rows labelled
`"2020 Current"`, then `pd.to_numeric` on the `Year` column — which
raises (modelled as `none`) when any remaining label fails to parse. -/
def fix_year (df : List BRecord) : Option (List NRecord) :=
  if (df.filter fun r => !r.year.isCurrent).all
      (fun r => r.year.toNumeric.isSome) then
    some ((df.filter fun r => !r.year.isCurrent).filterMap fun r =>
      r.year.toNumeric.map fun y => (⟨r.entity, y, r.budget⟩ : NRecord))
  else none

/-- `Sheet.get_df` from the wide frame on: melt, fix the budgets, fix
the years. -/
def get_df (w : WideSheet) : Option (List NRecord) :=
  fix_year (fix_budget (melt w))

end Sheet

/-- A pycountry record, reduced to the one field the program reads. -/
structure IsoCountry where
  numeric : ℕ
deriving DecidableEq, Repr

/-- Python `str.replace` on character lists: replace every
non-overlapping occurrence of `pat`, scanning left to right.  The fuel
argument (instantiated with the string length, enough when `pat` is
non-empty, since every step consumes at least one character) only makes
the recursion structural. -/
def pyReplaceLoop (pat rep : List Char) : ℕ → List Char → List Char
| _, [] => []
| 0, s => s
| fuel + 1, c :: rest =>
  if pat.isPrefixOf (c :: rest) then
    rep ++ pyReplaceLoop pat rep fuel ((c :: rest).drop pat.length)
  else c :: pyReplaceLoop pat rep fuel rest

/-- Python `s.replace(pat, rep)` for a non-empty pattern (the one
pattern the program uses is `"Rep."`; Python's special treatment of an
empty pattern is not modelled). -/
def pyReplace (s pat rep : String) : String :=
  if pat.data = [] then s
  else ⟨pyReplaceLoop pat.data rep.data s.data.length s.data⟩

namespace Sipri

/-- `Sipri.sipri_to_ISO_country_map` (lines 60-77), verbatim. -/
def sipri_to_ISO_country_map : List (String × String) :=
  [("Cape Verde", "Cabo Verde"),
   ("Congo, Republic of", "Congo"),
   ("Congo, Dem. Rep.", "Congo, The Democratic Republic of the"),
   ("Côte d’Ivoire", "Côte d'Ivoire"),
   ("Trinidad & Tobago", "Trinidad and Tobago"),
   ("USA", "United States"),
   ("Korea, South", "Korea, Republic of"),
   ("Korea, North", "Korea, Democratic People's Republic of"),
   ("Brunei", "Brunei Darussalam"),
   ("Bosnia-Herzegovina", "Bosnia and Herzegovina"),
   ("Russia", "Russian Federation"),
   ("UK", "United Kingdom"),
   ("Iran", "Iran, Islamic Republic of"),
   ("Laos", "Lao People's Democratic Republic"),
   ("Syria", "Syrian Arab Republic"),
   ("UAE", "United Arab Emirates")]

/-- `Sipri.__map_country_name` (lines 227-233): alias-table lookup with
the name itself as fallback (`try`/`KeyError`), then the substitution
`replace("Rep.", "Republic")`. -/
def map_country_name (n : String) : String :=
  pyReplace ((sipri_to_ISO_country_map.lookup n).getD n) "Rep." "Republic"

/-- `Sipri.__get_country_id` (lines 219-225).  The pycountry database is
not part of the repository, so its two lookup modes
`countries.get(name=...)` and `countries.get(common_name=...)` are taken
as function parameters.  When both lookups return `None` the code calls
`.numeric` on `None` and raises (`AttributeError`), modelled as
`Except.error`. -/
def get_country_id (byName byCommonName : String → Option IsoCountry)
    (n : String) : Except Unit ℕ :=
  if n == "Kosovo" then .ok 0
  else
    match byName (map_country_name n) with
    | some iso => .ok iso.numeric
    | none =>
      match byCommonName (map_country_name n) with
      | some iso => .ok iso.numeric
      | none => .error ()

/-- Python `list(range(a, b))` over integers. -/
def pyRange (a b : ℤ) : List ℤ :=
  (List.range (b - a).toNat).map fun i => a + Int.ofNat i

/-- `Sipri.__select_df` (lines 125-127): build
`full_year_list = range(tick_year_list[0], last_year)` — an
`IndexError` (modelled `none`) when the tick list is empty — and keep
the rows whose year is in that list and whose entity is in
`country_names`. -/
def select_df (df : List NRecord) (names : List String) (ticks : List ℤ)
    (lastYear : ℤ) : Option (List NRecord) :=
  match ticks with
  | [] => none
  | t0 :: _ =>
    some (df.filter fun r =>
      decide (r.year ∈ pyRange t0 lastYear) && decide (r.entity ∈ names))

/-- `Sipri.__transform_country_to_regional` (lines 180-182): divide each
budget by 1000 (`Series.map` applies it to NaN as well, and NaN/1000 is
NaN).  The column rename `Country → Region` does not change any row. -/
def transform_country_to_regional (df : List NRecord) : List NRecord :=
  df.map fun r => ⟨r.entity, r.year, r.budget.divByThousand⟩

/-- The `[["Year", "Budget"]].set_index('Year')` view of a frame. -/
def pairsOf (df : List NRecord) : List (ℤ × PyFloat) :=
  df.map fun r => (r.year, r.budget)

/-- Value of a year-indexed series at a year: the first matching row. -/
def lookupYear (xs : List (ℤ × PyFloat)) (y : ℤ) : Option PyFloat :=
  (xs.find? fun p => p.1 == y).map fun p => p.2

/-- Index alignment of pandas frame arithmetic: when the two indexes are
identical the left index is kept as is; otherwise the result index is
their union, deduplicated and sorted ascending. -/
def unionYears (xs ys : List (ℤ × PyFloat)) : List ℤ :=
  if (xs.map fun p => p.1) == (ys.map fun p => p.1) then
    xs.map fun p => p.1
  else
    List.insertionSort (· ≤ ·)
      ((xs.map fun p => p.1) ++ (ys.map fun p => p.1)).dedup

/-- Year-aligned subtraction `xs - ys` of two year-indexed series, as
pandas performs it: on the aligned index, positions present in both
sides subtract (NaN-propagating), positions missing from either side
become NaN. -/
def alignedSub (xs ys : List (ℤ × PyFloat)) : List (ℤ × PyFloat) :=
  (unionYears xs ys).map fun y =>
    match lookupYear xs y, lookupYear ys y with
    | some a, some b => (y, a.sub b)
    | _, _ => (y, PyFloat.nan)

/-- The `"Americas"` side of the subtraction (line 185):
`region_df.loc[region_df['Region'] == 'Americas', ["Year", 'Budget']]`
with `Year` as index. -/
def americas_pairs (region_df : List NRecord) : List (ℤ × PyFloat) :=
  pairsOf (region_df.filter fun r => r.entity == "Americas")

/-- `Sipri.__subtract_usa_from_americas` (lines 184-191): subtract the
USA series from the `"Americas"` rows year by year, label the resulting
rows `"Americas minus US"` (the fresh `RangeIndex` after `reset_index`
aligns the assigned name series with every row), drop the original
`"Americas"` rows and concatenate. -/
def subtract_usa_from_americas (region_df usa_df : List NRecord) :
    List NRecord :=
  (region_df.filter fun r => !(r.entity == "Americas")) ++
    (alignedSub (americas_pairs region_df) (pairsOf usa_df)).map fun p =>
      (⟨"Americas minus US", p.1, p.2⟩ : NRecord)

/-- `Sipri.__merge_USA_into_regional` (lines 169-178): select the
requested regions from the regional table and `"USA"` from the country
table (both with the default `last_year = 2021`), rescale the country
series, subtract it from `"Americas"` when that region was requested,
and concatenate (a failed select propagates). -/
def merge_USA_into_regional (regional constant : List NRecord)
    (region_names : List String) (ticks : List ℤ) : Option (List NRecord) :=
  (select_df regional region_names ticks 2021).bind fun region_sel =>
    (select_df constant ["USA"] ticks 2021).map fun usa_sel0 =>
      if decide ("Americas" ∈ region_names) then
        subtract_usa_from_americas region_sel
          (transform_country_to_regional usa_sel0) ++
          transform_country_to_regional usa_sel0
      else region_sel ++ transform_country_to_regional usa_sel0

end Sipri

/-- Whether a budget cell holds, or is a string parsing to, an infinite
float (Python `float("inf")` succeeds and is not NaN). -/
def Cell.isInf : Cell → Bool
| .num .pinf => true
| .num .ninf => true
| .str _ (some .pinf) => true
| .str _ (some .ninf) => true
| _ => false

/-- The integer years of a wide frame: its year labels, the literal
`"2020 Current"` excluded, parsed by `pd.to_numeric`. -/
def year_ints (w : WideSheet) : List ℤ :=
  ((w.rows.map fun row => row.1).filter fun l => !l.isCurrent).filterMap
    YearLabel.toNumeric

/-- The contribution of one year label to the final `Year` column:
nothing for the excluded `"2020 Current"` label, otherwise its
`pd.to_numeric` parse. -/
def year_key (l : YearLabel) : Option ℤ :=
  if l.isCurrent then none else l.toNumeric

/-! ## Concrete data used by witnesses and counterexamples -/

/-- The survivorship scenario of the spec: entity `"A"` has the sentinel
`"xxx"` in 2020 and a numeric value in 2019; entity `"B"` reports in
both years. -/
def survivorSheet : WideSheet :=
  { entities := ["A", "B"],
    rows := [(YearLabel.int 2019, [Cell.num (.fin 5), Cell.num (.fin 1)]),
             (YearLabel.int 2020, [Cell.str "xxx" none, Cell.num (.fin 2)])] }

def survivorTable : List NRecord := (Sheet.get_df survivorSheet).getD []

/-- A sheet whose 2020 budget cell is the string `"inf"`, which Python
`float` parses to positive infinity. -/
def infSheet : WideSheet :=
  { entities := ["A"],
    rows := [(YearLabel.int 2020, [Cell.str "inf" (some .pinf)])] }

/-- A sheet with a malformed budget string in a non-reference year. -/
def malformedSheet : WideSheet :=
  { entities := ["B"],
    rows := [(YearLabel.int 1990, [Cell.str "abc" none]),
             (YearLabel.int 2020, [Cell.num (.fin 2)])] }

def malformedTable : List NRecord := (Sheet.get_df malformedSheet).getD []

/-- The year-header scenario of the spec: ordinary year labels 2019 and
2020 plus the annotated label `"2020 Current"` (which `pd.to_numeric`
cannot parse). -/
def currentSheet : WideSheet :=
  { entities := ["A"],
    rows := [(YearLabel.int 2019, [Cell.num (.fin 5)]),
             (YearLabel.int 2020, [Cell.num (.fin 7)]),
             (YearLabel.str "2020 Current" none, [Cell.num (.fin 9)])] }

def currentTable : List NRecord := (Sheet.get_df currentSheet).getD []

/-- A two-region regional-totals table. -/
def regionalSample : List NRecord :=
  [⟨"Americas", 2018, .fin 100⟩, ⟨"Americas", 2019, .fin 200⟩,
   ⟨"Europe", 2019, .fin 300⟩]

/-- A country table holding the USA series (in the country tab's unit,
a thousandth of the regional tab's). -/
def countrySample : List NRecord :=
  [⟨"USA", 2019, .fin 50000⟩, ⟨"USA", 2020, .fin 60000⟩]

def regionSelSample : List NRecord :=
  (Sipri.select_df regionalSample ["Americas"] [2018] 2021).getD []

def usaSelSample : List NRecord :=
  (Sipri.select_df countrySample ["USA"] [2018] 2021).getD []

def mergeSample : List NRecord :=
  (Sipri.merge_USA_into_regional regionalSample countrySample
    ["Americas"] [2018]).getD []

/-- A miniature stand-in for the pycountry database holding the one
entry the witnesses need (ISO 3166 numeric code 840). -/
def miniByName : String → Option IsoCountry :=
  fun s => if s == "United States" then some ⟨840⟩ else none

/-- A common-name lookup that finds nothing. -/
def miniByCommonName : String → Option IsoCountry := fun _ => none

/-! ## Helper lemmas -/

lemma mem_pyRange {a b y : ℤ} : y ∈ Sipri.pyRange a b ↔ a ≤ y ∧ y < b := by
  simp only [Sipri.pyRange, List.mem_map, List.mem_range, Int.ofNat_eq_coe]
  constructor
  · rintro ⟨i, hi, rfl⟩
    omega
  · intro h
    exact ⟨(y - a).toNat, by omega, by omega⟩

/-! ## Claims about selection (`Sipri.__select_df`) -/

/-- C6: with a non-empty tick list, `select_df` returns exactly the rows
whose entity is in the requested set and whose year `y` satisfies
`ticks[0] ≤ y < lastYear` — the upper bound of the year range is
exclusive. -/
theorem select_df_exact_rows (df : List NRecord) (names : List String)
    (t0 : ℤ) (rest : List ℤ) (lastYear : ℤ) :
    ∃ out, Sipri.select_df df names (t0 :: rest) lastYear = some out ∧
      ∀ r, r ∈ out ↔
        r ∈ df ∧ r.entity ∈ names ∧ t0 ≤ r.year ∧ r.year < lastYear := by
  refine ⟨_, rfl, fun r => ?_⟩
  simp only [List.mem_filter, Bool.and_eq_true, decide_eq_true_iff, mem_pyRange]
  tauto

/-- C7: selecting with the entity set equal to all entities present in
the table and a year range covering all years present returns a table
with the same number of rows as the original table. -/
theorem select_df_round_trip (df : List NRecord) (m M : ℤ)
    (h : ∀ r ∈ df, m ≤ r.year ∧ r.year < M) :
    ∃ out, Sipri.select_df df (df.map fun r => r.entity) [m] M = some out ∧
      out.length = df.length := by
  refine ⟨_, rfl, ?_⟩
  have hall : (df.filter fun r =>
      decide (r.year ∈ Sipri.pyRange m M) &&
      decide (r.entity ∈ df.map fun r => r.entity)) = df := by
    rw [List.filter_eq_self]
    intro r hr
    have h1 := (h r hr).1
    have h2 := (h r hr).2
    simp only [Bool.and_eq_true, decide_eq_true_iff, mem_pyRange, List.mem_map]
    exact ⟨⟨h1, h2⟩, r, hr, rfl⟩
  rw [hall]

/-- C7 witness: the round trip at a concrete three-row table. -/
theorem select_df_round_trip_witness :
    ∃ out, Sipri.select_df
        [(⟨"Americas", 2018, .fin 100⟩ : NRecord),
         ⟨"Americas", 2019, .fin 200⟩, ⟨"Europe", 2019, .fin 300⟩]
        (List.map (fun r => r.entity)
          [(⟨"Americas", 2018, .fin 100⟩ : NRecord),
           ⟨"Americas", 2019, .fin 200⟩, ⟨"Europe", 2019, .fin 300⟩])
        [2018] 2020 = some out ∧
      out.length = List.length
        [(⟨"Americas", 2018, .fin 100⟩ : NRecord),
         ⟨"Americas", 2019, .fin 200⟩, ⟨"Europe", 2019, .fin 300⟩] :=
  select_df_round_trip
    [⟨"Americas", 2018, .fin 100⟩, ⟨"Americas", 2019, .fin 200⟩,
     ⟨"Europe", 2019, .fin 300⟩] 2018 2020 (by decide)

/-- C10: with an empty tick-year list, `select_df` fails on the
out-of-bounds access `tick_year_list[0]` (modelled as `none`) instead of
returning an empty record set. -/
theorem select_df_empty_ticks_fails (df : List NRecord)
    (names : List String) (lastYear : ℤ) :
    Sipri.select_df df names [] lastYear = none := rfl

lemma get_df_provenance {w : WideSheet} {t : List NRecord}
    (ht : Sheet.get_df w = some t) :
    ∀ r ∈ t, ∃ raw ∈ Sheet.melt w,
      raw.entity = r.entity ∧
      raw.year ∈ (w.rows.map fun row => row.1) ∧
      raw.cell.isNa = false ∧
      raw.entity ∈ Sheet.living_of (Sheet.dropna (Sheet.melt w)) ∧
      raw.year.isCurrent = false ∧
      raw.year.toNumeric = some r.year ∧
      r.budget = Sheet.clean_budget raw.cell := by
  intro r hr
  unfold Sheet.get_df Sheet.fix_year at ht
  split at ht
  case isFalse => exact Option.noConfusion ht
  case isTrue hall =>
    have hteq := Option.some.inj ht
    subst hteq
    rw [List.mem_filterMap] at hr
    obtain ⟨b, hb, hfb⟩ := hr
    rw [List.mem_filter] at hb
    obtain ⟨hbmem, hbcur⟩ := hb
    rw [Option.map_eq_some'] at hfb
    obtain ⟨y, hy, hyr⟩ := hfb
    unfold Sheet.fix_budget at hbmem
    rw [List.mem_map] at hbmem
    obtain ⟨raw, hrawmem, hrawb⟩ := hbmem
    unfold Sheet.remove_dead_countries at hrawmem
    rw [List.mem_filter] at hrawmem
    obtain ⟨hrawdrop, hliving⟩ := hrawmem
    have hliving' := decide_eq_true_iff.mp hliving
    have hdrop := hrawdrop
    unfold Sheet.dropna at hdrop
    rw [List.mem_filter] at hdrop
    obtain ⟨hrawmelt, hrawna⟩ := hdrop
    refine ⟨raw, hrawmelt, ?_, ?_, ?_, hliving', ?_, ?_, ?_⟩
    · rw [← hyr, ← hrawb]
    · unfold Sheet.melt at hrawmelt
      rw [List.mem_flatMap] at hrawmelt
      obtain ⟨ie, _, hmem⟩ := hrawmelt
      rw [List.mem_map] at hmem
      obtain ⟨row, hrow, hre⟩ := hmem
      rw [List.mem_map]
      exact ⟨row, hrow, by rw [← hre]⟩
    · simpa using hrawna
    · rw [← hrawb] at hbcur
      simpa using hbcur
    · rw [← hyr]
      rw [← hrawb] at hy
      exact hy
    · rw [← hyr, ← hrawb]

/-- C1: an entity whose every raw reference-year (2020) budget cell is
the sentinel `"xxx"` or missing — in particular one with `"xxx"` in 2020
and a numeric value in 2019 — has zero rows in the normalized table for
every year. -/
theorem survivorship_removes_entity_everywhere (w : WideSheet) (e : String)
    (h : ∀ raw ∈ Sheet.melt w, raw.entity = e →
      raw.year = YearLabel.int 2020 →
      raw.cell.eqXXX = true ∨ raw.cell.isNa = true)
    (t : List NRecord) (ht : Sheet.get_df w = some t) :
    ∀ r ∈ t, r.entity ≠ e := by
  intro r hr he
  obtain ⟨raw, hmelt, hent, -, -, hliving, -, -, -⟩ :=
    get_df_provenance ht r hr
  rw [hent, he] at hliving
  unfold Sheet.living_of at hliving
  rw [List.mem_map] at hliving
  obtain ⟨raw2, hraw2, hent2⟩ := hliving
  rw [List.mem_filter] at hraw2
  obtain ⟨hdrop2, hcond2⟩ := hraw2
  unfold Sheet.dropna at hdrop2
  rw [List.mem_filter] at hdrop2
  obtain ⟨hmelt2, hna2⟩ := hdrop2
  rw [Bool.and_eq_true, beq_iff_eq] at hcond2
  obtain ⟨hyear2, hxxx2⟩ := hcond2
  rcases h raw2 hmelt2 hent2 hyear2 with hx | hx
  · rw [hx] at hxxx2
    exact Bool.noConfusion hxxx2
  · rw [hx] at hna2
    exact Bool.noConfusion hna2

/-- C1 witness: in the concrete survivorship scenario (`"A"` has
`"xxx"` in 2020 and the value 5 in 2019) no row of the normalized table
belongs to `"A"`. -/
theorem survivorship_removes_entity_everywhere_witness :
    Sheet.get_df survivorSheet = some survivorTable ∧
    ∀ r ∈ survivorTable, r.entity ≠ "A" :=
  ⟨rfl, survivorship_removes_entity_everywhere survivorSheet "A" (by decide)
    survivorTable rfl⟩

/-- C3 counterexample: a budget cell holding the string `"inf"` (which
Python `float` parses to positive infinity without raising) survives
into the public normalized table as an infinite budget — neither a
finite float nor absent. -/
theorem budget_not_always_finite_or_absent :
    Sheet.get_df infSheet =
      some [{ entity := "A", year := 2020, budget := PyFloat.pinf }] ∧
    PyFloat.pinf.isFinite = false ∧ PyFloat.pinf.isnan = false := by
  decide

/-- C3 amended: budget coercion is total (a malformed or sentinel cell
becomes the absent value NaN, never an error), and provided no cell
holds or parses to an infinite float, every budget of the normalized
table is either a finite float or absent, with no NaN standing for a
present value. -/
theorem budget_finite_or_absent (w : WideSheet) (t : List NRecord)
    (ht : Sheet.get_df w = some t)
    (hinf : ∀ raw ∈ Sheet.melt w, raw.cell.isInf = false) :
    (∀ s, Sheet.clean_budget (Cell.str s none) = PyFloat.nan) ∧
    ∀ r ∈ t, r.budget.isFinite = true ∨ r.budget.isnan = true := by
  refine ⟨fun s => rfl, ?_⟩
  intro r hr
  obtain ⟨raw, hmelt, -, -, -, -, -, -, hbud⟩ := get_df_provenance ht r hr
  have hni := hinf raw hmelt
  rw [hbud]
  match hc : raw.cell with
  | .num f =>
    rw [hc] at hni
    unfold Cell.isInf at hni
    match f with
    | .fin q => left; rfl
    | .nan => right; rfl
    | .pinf => exact Bool.noConfusion hni
    | .ninf => exact Bool.noConfusion hni
  | .str s p =>
    rw [hc] at hni
    unfold Cell.isInf at hni
    match p with
    | none => right; rfl
    | some (.fin q) => left; rfl
    | some .nan => right; rfl
    | some .pinf => exact Bool.noConfusion hni
    | some .ninf => exact Bool.noConfusion hni

/-- C3 amended witness: at the concrete sheet with a malformed budget
string, the malformed cell is absent in the output and every budget is
finite or absent. -/
theorem budget_finite_or_absent_witness :
    (∀ s, Sheet.clean_budget (Cell.str s none) = PyFloat.nan) ∧
    ∀ r ∈ malformedTable, r.budget.isFinite = true ∨ r.budget.isnan = true :=
  budget_finite_or_absent malformedSheet malformedTable rfl (by decide)

/-- C4: under any pycountry database that knows `"United States"` by
name, `"USA"` (via the alias table) and `"United States"` (directly)
resolve to the same underlying numeric code, and `"Kosovo"` resolves to
the sentinel identifier 0. -/
theorem resolve_identifier_usa_kosovo
    (byName byCommonName : String → Option IsoCountry) (iso : IsoCountry)
    (h : byName "United States" = some iso) :
    Sipri.get_country_id byName byCommonName "USA" = Except.ok iso.numeric ∧
    Sipri.get_country_id byName byCommonName "United States" =
      Except.ok iso.numeric ∧
    Sipri.get_country_id byName byCommonName "Kosovo" = Except.ok 0 := by
  have h1 : Sipri.map_country_name "USA" = "United States" := by decide
  have h2 : Sipri.map_country_name "United States" = "United States" := by
    decide
  refine ⟨?_, ?_, ?_⟩
  · unfold Sipri.get_country_id
    rw [if_neg (by decide), h1, h]
  · unfold Sipri.get_country_id
    rw [if_neg (by decide), h2, h]
  · rfl

/-- C4 witness: with the miniature database mapping `"United States"` to
code 840, both resolutions yield 840 and Kosovo yields 0. -/
theorem resolve_identifier_usa_kosovo_witness :
    Sipri.get_country_id miniByName miniByCommonName "USA" =
      Except.ok (IsoCountry.mk 840).numeric ∧
    Sipri.get_country_id miniByName miniByCommonName "United States" =
      Except.ok (IsoCountry.mk 840).numeric ∧
    Sipri.get_country_id miniByName miniByCommonName "Kosovo" =
      Except.ok 0 :=
  resolve_identifier_usa_kosovo miniByName miniByCommonName ⟨840⟩ rfl

/-- C5: for a name other than the Kosovo special case, resolution
applies the alias table first and the `"Rep." → "Republic"` substitution
before any lookup, then tries the literal-name lookup, then the
common-name lookup, and fails with a distinguishable error when both
lookups miss. -/
theorem resolve_identifier_strategy_order
    (byName byCommonName : String → Option IsoCountry) (n : String)
    (hn : n ≠ "Kosovo") :
    (∀ a, Sipri.sipri_to_ISO_country_map.lookup n = some a →
      Sipri.map_country_name n = pyReplace a "Rep." "Republic") ∧
    (Sipri.sipri_to_ISO_country_map.lookup n = none →
      Sipri.map_country_name n = pyReplace n "Rep." "Republic") ∧
    (∀ iso, byName (Sipri.map_country_name n) = some iso →
      Sipri.get_country_id byName byCommonName n = Except.ok iso.numeric) ∧
    (byName (Sipri.map_country_name n) = none →
      ∀ iso, byCommonName (Sipri.map_country_name n) = some iso →
      Sipri.get_country_id byName byCommonName n = Except.ok iso.numeric) ∧
    (byName (Sipri.map_country_name n) = none →
      byCommonName (Sipri.map_country_name n) = none →
      Sipri.get_country_id byName byCommonName n = Except.error ()) := by
  have hkne : ((n == "Kosovo") = true) → False := by
    intro hk
    exact hn (by simpa using hk)
  refine ⟨?_, ?_, ?_, ?_, ?_⟩
  · intro a ha
    unfold Sipri.map_country_name
    rw [ha]
    rfl
  · intro ha
    unfold Sipri.map_country_name
    rw [ha]
    rfl
  · intro iso hiso
    unfold Sipri.get_country_id
    rw [if_neg hkne, hiso]
  · intro hnone iso hiso
    unfold Sipri.get_country_id
    rw [if_neg hkne, hnone, hiso]
  · intro hnone hnone2
    unfold Sipri.get_country_id
    rw [if_neg hkne, hnone, hnone2]

/-- C5 witness: the strategy order at the aliased name
`"Congo, Dem. Rep."` under the miniature database (both lookups miss, so
resolution fails with the distinguishable error). -/
theorem resolve_identifier_strategy_order_witness :
    (∀ a, Sipri.sipri_to_ISO_country_map.lookup "Congo, Dem. Rep." = some a →
      Sipri.map_country_name "Congo, Dem. Rep." =
        pyReplace a "Rep." "Republic") ∧
    (Sipri.sipri_to_ISO_country_map.lookup "Congo, Dem. Rep." = none →
      Sipri.map_country_name "Congo, Dem. Rep." =
        pyReplace "Congo, Dem. Rep." "Rep." "Republic") ∧
    (∀ iso, miniByName (Sipri.map_country_name "Congo, Dem. Rep.") =
        some iso →
      Sipri.get_country_id miniByName miniByCommonName "Congo, Dem. Rep." =
        Except.ok iso.numeric) ∧
    (miniByName (Sipri.map_country_name "Congo, Dem. Rep.") = none →
      ∀ iso, miniByCommonName (Sipri.map_country_name "Congo, Dem. Rep.") =
        some iso →
      Sipri.get_country_id miniByName miniByCommonName "Congo, Dem. Rep." =
        Except.ok iso.numeric) ∧
    (miniByName (Sipri.map_country_name "Congo, Dem. Rep.") = none →
      miniByCommonName (Sipri.map_country_name "Congo, Dem. Rep.") = none →
      Sipri.get_country_id miniByName miniByCommonName "Congo, Dem. Rep." =
        Except.error ()) :=
  resolve_identifier_strategy_order miniByName miniByCommonName
    "Congo, Dem. Rep." (by decide)

lemma pairsOf_fst (l : List NRecord) :
    (Sipri.pairsOf l).map (fun p => p.1) = l.map fun r => r.year := by
  simp [Sipri.pairsOf]

lemma transform_years (l : List NRecord) :
    (Sipri.transform_country_to_regional l).map (fun r => r.year) =
      l.map fun r => r.year := by
  simp [Sipri.transform_country_to_regional]

lemma lookupYear_eq_of_mem {xs : List (ℤ × PyFloat)} {y : ℤ} {b : PyFloat}
    (hnd : (xs.map fun p => p.1).Nodup) (hmem : (y, b) ∈ xs) :
    Sipri.lookupYear xs y = some b := by
  induction xs with
  | nil => cases hmem
  | cons p ps ih =>
    rw [List.map_cons, List.nodup_cons] at hnd
    obtain ⟨hnotin, hnd2⟩ := hnd
    rcases List.mem_cons.mp hmem with heq | hmem2
    · subst heq
      unfold Sipri.lookupYear
      rw [List.find?_cons_of_pos _ (by simp)]
      rfl
    · have hne : (p.1 == y) = false := by
        rw [beq_eq_false_iff_ne]
        intro hpy
        exact hnotin (hpy ▸ List.mem_map.mpr ⟨(y, b), hmem2, rfl⟩)
      unfold Sipri.lookupYear
      rw [List.find?_cons_of_neg _ (by simp [hne])]
      exact ih hnd2 hmem2

lemma lookupYear_eq_none {xs : List (ℤ × PyFloat)} {y : ℤ}
    (h : y ∉ xs.map fun p => p.1) : Sipri.lookupYear xs y = none := by
  unfold Sipri.lookupYear
  rw [List.find?_eq_none.mpr]
  · rfl
  · intro p hp
    simp only [beq_eq_false_iff_ne, ne_eq, Bool.not_eq_true]
    intro hpy
    exact h (hpy ▸ List.mem_map.mpr ⟨p, hp, rfl⟩)

lemma mem_unionYears {xs ys : List (ℤ × PyFloat)} {y : ℤ} :
    y ∈ Sipri.unionYears xs ys ↔
      (y ∈ xs.map fun p => p.1) ∨ (y ∈ ys.map fun p => p.1) := by
  unfold Sipri.unionYears
  split
  case isTrue h =>
    have heq : (xs.map fun p => p.1) = ys.map fun p => p.1 := by
      simpa using h
    rw [← heq]
    exact (or_self_iff).symm
  case isFalse h =>
    rw [(List.perm_insertionSort _ _).mem_iff, List.mem_dedup, List.mem_append]

lemma mem_alignedSub_of_both {xs ys : List (ℤ × PyFloat)} {y : ℤ}
    {a b : PyFloat}
    (hxnd : (xs.map fun p => p.1).Nodup) (hynd : (ys.map fun p => p.1).Nodup)
    (hx : (y, a) ∈ xs) (hy : (y, b) ∈ ys) :
    (y, a.sub b) ∈ Sipri.alignedSub xs ys := by
  unfold Sipri.alignedSub
  rw [List.mem_map]
  refine ⟨y, mem_unionYears.mpr (Or.inl (List.mem_map.mpr ⟨(y, a), hx, rfl⟩)),
    ?_⟩
  rw [lookupYear_eq_of_mem hxnd hx, lookupYear_eq_of_mem hynd hy]

lemma mem_alignedSub_of_one {xs ys : List (ℤ × PyFloat)} {y : ℤ}
    (h : (y ∈ xs.map fun p => p.1) ∨ (y ∈ ys.map fun p => p.1))
    (hnot : (y ∉ xs.map fun p => p.1) ∨ (y ∉ ys.map fun p => p.1)) :
    (y, PyFloat.nan) ∈ Sipri.alignedSub xs ys := by
  unfold Sipri.alignedSub
  rw [List.mem_map]
  refine ⟨y, mem_unionYears.mpr h, ?_⟩
  rcases hnot with hn | hn
  · rw [lookupYear_eq_none hn]
  · rw [lookupYear_eq_none hn]
    cases Sipri.lookupYear xs y <;> rfl

lemma select_df_some {df : List NRecord} {names : List String}
    {ticks : List ℤ} {L : ℤ} {out : List NRecord}
    (h : Sipri.select_df df names ticks L = some out) :
    ∀ r ∈ out, r ∈ df ∧ r.entity ∈ names := by
  match ticks with
  | [] => exact Option.noConfusion h
  | t0 :: rest =>
    have hout : (df.filter fun r =>
        decide (r.year ∈ Sipri.pyRange t0 L) && decide (r.entity ∈ names)) =
          out := Option.some.inj h
    intro r hr
    rw [← hout, List.mem_filter] at hr
    obtain ⟨hdf, hcond⟩ := hr
    rw [Bool.and_eq_true, decide_eq_true_iff, decide_eq_true_iff] at hcond
    exact ⟨hdf, hcond.2⟩

/-- C2: when `"Americas"` is among the requested regions, the merge
yields, for every year shared by the selected Americas series and the
rescaled country series, a row named `"Americas minus US"` whose budget
is the Americas budget minus the rescaled country budget, and no row
named `"Americas"` appears in the output. -/
theorem merge_americas_minus_us
    (regional constant : List NRecord) (names : List String) (ticks : List ℤ)
    (regionSel usaSel0 out : List NRecord)
    (hAm : "Americas" ∈ names)
    (hr : Sipri.select_df regional names ticks 2021 = some regionSel)
    (hu : Sipri.select_df constant ["USA"] ticks 2021 = some usaSel0)
    (hm : Sipri.merge_USA_into_regional regional constant names ticks =
      some out)
    (hnd1 : ((regionSel.filter fun r => r.entity == "Americas").map
      fun r => r.year).Nodup)
    (hnd2 : (usaSel0.map fun r => r.year).Nodup) :
    (∀ ra ∈ regionSel.filter fun r => r.entity == "Americas",
      ∀ ru ∈ Sipri.transform_country_to_regional usaSel0,
      ra.year = ru.year →
      ∃ r ∈ out, r.entity = "Americas minus US" ∧ r.year = ra.year ∧
        r.budget = ra.budget.sub ru.budget) ∧
    (∀ r ∈ out, r.entity ≠ "Americas") := by
  unfold Sipri.merge_USA_into_regional at hm
  rw [hr, hu] at hm
  rw [Option.some_bind, Option.map_some', if_pos (decide_eq_true hAm)] at hm
  have hout := Option.some.inj hm
  constructor
  · intro ra hra ru hru hyy
    have hapair : (ra.year, ra.budget) ∈ Sipri.americas_pairs regionSel :=
      List.mem_map.mpr ⟨ra, hra, rfl⟩
    have hupair : (ra.year, ru.budget) ∈
        Sipri.pairsOf (Sipri.transform_country_to_regional usaSel0) := by
      rw [hyy]
      exact List.mem_map.mpr ⟨ru, hru, rfl⟩
    have hnd1' : ((Sipri.americas_pairs regionSel).map fun p => p.1).Nodup := by
      rw [Sipri.americas_pairs, pairsOf_fst]
      exact hnd1
    have hnd2' : ((Sipri.pairsOf
        (Sipri.transform_country_to_regional usaSel0)).map
          fun p => p.1).Nodup := by
      rw [pairsOf_fst, transform_years]
      exact hnd2
    have hmem := mem_alignedSub_of_both hnd1' hnd2' hapair hupair
    refine ⟨⟨"Americas minus US", ra.year, ra.budget.sub ru.budget⟩,
      ?_, rfl, rfl, rfl⟩
    rw [← hout, List.mem_append]
    left
    unfold Sipri.subtract_usa_from_americas
    rw [List.mem_append]
    right
    exact List.mem_map.mpr ⟨(ra.year, ra.budget.sub ru.budget), hmem, rfl⟩
  · intro r hrmem
    rw [← hout, List.mem_append] at hrmem
    rcases hrmem with hin | hin
    · unfold Sipri.subtract_usa_from_americas at hin
      rw [List.mem_append] at hin
      rcases hin with hin2 | hin2
      · rw [List.mem_filter] at hin2
        have hb : (r.entity == "Americas") = false := by
          simpa using hin2.2
        exact beq_eq_false_iff_ne.mp hb
      · obtain ⟨p, _, hpe⟩ := List.mem_map.mp hin2
        rw [← hpe]
        show ("Americas minus US" : String) ≠ "Americas"
        decide
    · obtain ⟨r0, hr0, hre⟩ := List.mem_map.mp hin
      have hsel := (select_df_some hu) r0 hr0
      have hus : r0.entity = "USA" := by
        have := hsel.2
        rwa [List.mem_singleton] at this
      rw [← hre]
      show r0.entity ≠ "Americas"
      rw [hus]
      decide

/-- C9: with `"Americas"` selected, the subtraction aligns the region
and country series on the union of their years: a year present in
exactly one of the two selected series still yields an
`"Americas minus US"` row, with an absent (NaN) budget. -/
theorem merge_americas_union_not_intersection
    (regional constant : List NRecord) (names : List String) (ticks : List ℤ)
    (regionSel usaSel0 out : List NRecord)
    (hAm : "Americas" ∈ names)
    (hr : Sipri.select_df regional names ticks 2021 = some regionSel)
    (hu : Sipri.select_df constant ["USA"] ticks 2021 = some usaSel0)
    (hm : Sipri.merge_USA_into_regional regional constant names ticks =
      some out) :
    ∀ y : ℤ,
      ((y ∈ (regionSel.filter fun r => r.entity == "Americas").map
          (fun r => r.year) ∧
        y ∉ usaSel0.map fun r => r.year) ∨
       (y ∉ (regionSel.filter fun r => r.entity == "Americas").map
          (fun r => r.year) ∧
        y ∈ usaSel0.map fun r => r.year)) →
      ∃ r ∈ out, r.entity = "Americas minus US" ∧ r.year = y ∧
        r.budget = PyFloat.nan := by
  unfold Sipri.merge_USA_into_regional at hm
  rw [hr, hu] at hm
  rw [Option.some_bind, Option.map_some', if_pos (decide_eq_true hAm)] at hm
  have hout := Option.some.inj hm
  intro y hy
  have hyam : ∀ z : ℤ, (z ∈ (regionSel.filter fun r =>
      r.entity == "Americas").map fun r => r.year) ↔
      z ∈ (Sipri.americas_pairs regionSel).map fun p => p.1 := by
    intro z
    rw [Sipri.americas_pairs, pairsOf_fst]
  have hyus : ∀ z : ℤ, (z ∈ usaSel0.map fun r => r.year) ↔
      z ∈ (Sipri.pairsOf
        (Sipri.transform_country_to_regional usaSel0)).map fun p => p.1 := by
    intro z
    rw [pairsOf_fst, transform_years]
  have hmem : (y, PyFloat.nan) ∈ Sipri.alignedSub
      (Sipri.americas_pairs regionSel)
      (Sipri.pairsOf (Sipri.transform_country_to_regional usaSel0)) := by
    apply mem_alignedSub_of_one
    · rcases hy with ⟨h1, _⟩ | ⟨_, h2⟩
      · exact Or.inl ((hyam y).mp h1)
      · exact Or.inr ((hyus y).mp h2)
    · rcases hy with ⟨_, h2⟩ | ⟨h1, _⟩
      · exact Or.inr (fun hc => h2 ((hyus y).mpr hc))
      · exact Or.inl (fun hc => h1 ((hyam y).mpr hc))
  refine ⟨⟨"Americas minus US", y, PyFloat.nan⟩, ?_, rfl, rfl, rfl⟩
  rw [← hout, List.mem_append]
  left
  unfold Sipri.subtract_usa_from_americas
  rw [List.mem_append]
  right
  exact List.mem_map.mpr ⟨(y, PyFloat.nan), hmem, rfl⟩

/-- C2 witness: the merge at the concrete sample tables (Americas and
USA share year 2019). -/
theorem merge_americas_minus_us_witness :
    (∀ ra ∈ regionSelSample.filter fun r => r.entity == "Americas",
      ∀ ru ∈ Sipri.transform_country_to_regional usaSelSample,
      ra.year = ru.year →
      ∃ r ∈ mergeSample, r.entity = "Americas minus US" ∧ r.year = ra.year ∧
        r.budget = ra.budget.sub ru.budget) ∧
    (∀ r ∈ mergeSample, r.entity ≠ "Americas") :=
  merge_americas_minus_us regionalSample countrySample ["Americas"] [2018]
    regionSelSample usaSelSample mergeSample (by decide) rfl rfl rfl
    (by decide) (by decide)

/-- C9 witness: the union alignment at the concrete sample tables (year
2018 is present only in the Americas series and year 2020 only in the
USA series). -/
theorem merge_americas_union_not_intersection_witness :
    Sipri.merge_USA_into_regional regionalSample countrySample
      ["Americas"] [2018] = some mergeSample ∧
    ∀ y : ℤ,
      ((y ∈ (regionSelSample.filter fun r => r.entity == "Americas").map
          (fun r => r.year) ∧
        y ∉ usaSelSample.map fun r => r.year) ∨
       (y ∉ (regionSelSample.filter fun r => r.entity == "Americas").map
          (fun r => r.year) ∧
        y ∈ usaSelSample.map fun r => r.year)) →
      ∃ r ∈ mergeSample, r.entity = "Americas minus US" ∧ r.year = y ∧
        r.budget = PyFloat.nan :=
  ⟨rfl, merge_americas_union_not_intersection regionalSample countrySample
    ["Americas"] [2018] regionSelSample usaSelSample mergeSample
    (by decide) rfl rfl rfl⟩

lemma pairwise_flatMap {α β : Type _} {R : β → β → Prop} {l : List α}
    {f : α → List β}
    (hblocks : ∀ a ∈ l, (f a).Pairwise R)
    (hcross : l.Pairwise fun a b => ∀ x ∈ f a, ∀ y ∈ f b, R x y) :
    (l.flatMap f).Pairwise R := by
  induction l with
  | nil => exact List.Pairwise.nil
  | cons a as ih =>
    rw [List.flatMap_cons, List.pairwise_append]
    rw [List.pairwise_cons] at hcross
    refine ⟨hblocks a (List.mem_cons_self a as),
      ih (fun b hb => hblocks b (List.mem_cons_of_mem a hb)) hcross.2, ?_⟩
    intro x hx y hy
    rw [List.mem_flatMap] at hy
    obtain ⟨b, hb, hyb⟩ := hy
    exact hcross.1 b hb x hx y hyb

lemma pairwise_filterMap {α β : Type _} {R : β → β → Prop} {S : α → α → Prop}
    {f : α → Option β} {l : List α}
    (h : l.Pairwise S)
    (himp : ∀ a b x y, S a b → f a = some x → f b = some y → R x y) :
    (l.filterMap f).Pairwise R := by
  induction l with
  | nil => exact List.Pairwise.nil
  | cons a as ih =>
    rw [List.pairwise_cons] at h
    rw [List.filterMap_cons]
    cases hfa : f a with
    | none => exact ih h.2
    | some x =>
      rw [List.pairwise_cons]
      refine ⟨?_, ih h.2⟩
      intro y hy
      rw [List.mem_filterMap] at hy
      obtain ⟨b, hb, hfb⟩ := hy
      exact himp a b x y (h.1 b hb) hfa hfb

lemma nodup_filterMap_pairwise {α β : Type _} {f : α → Option β} {l : List α}
    (h : (l.filterMap f).Nodup) :
    l.Pairwise fun a b => ∀ z, f a = some z → f b = some z → False := by
  induction l with
  | nil => exact List.Pairwise.nil
  | cons a as ih =>
    rw [List.filterMap_cons] at h
    rw [List.pairwise_cons]
    cases hfa : f a with
    | none =>
      rw [hfa] at h
      refine ⟨?_, ih h⟩
      intro b hb z hza hzb
      exact Option.noConfusion hza
    | some x =>
      rw [hfa] at h
      rw [List.nodup_cons] at h
      refine ⟨?_, ih h.2⟩
      intro b hb z hza hzb
      have hzx : x = z := Option.some.inj hza
      exact h.1 (hzx ▸ List.mem_filterMap.mpr ⟨b, hb, hzb⟩)

lemma filterMap_filter_not {α β : Type _} (p : α → Bool) (f : α → Option β)
    (l : List α) :
    (l.filter fun x => !p x).filterMap f =
      l.filterMap fun x => if p x then none else f x := by
  induction l with
  | nil => rfl
  | cons a as ih =>
    cases hpa : p a with
    | true => simp [List.filter_cons, List.filterMap_cons, hpa, ih]
    | false => simp [List.filter_cons, List.filterMap_cons, hpa, ih]

lemma year_ints_eq (w : WideSheet) :
    year_ints w = (w.rows.map fun row => row.1).filterMap year_key := by
  unfold year_ints
  rw [filterMap_filter_not]
  rfl

/-- C8: no row of the normalized table comes from the literal
`"2020 Current"` header — every year of the table is the integer parse
of some other year label (so the ordinary 2020 labels become the integer
2020) — and, the wide frame having distinct entity columns and distinct
integer year labels, no entity has two rows with the same year. -/
theorem year_labels_clean (w : WideSheet) (t : List NRecord)
    (ht : Sheet.get_df w = some t)
    (hyd : (year_ints w).Nodup) (hed : w.entities.Nodup) :
    (∀ r ∈ t, r.year ∈ year_ints w) ∧
    t.Pairwise fun r1 r2 => r1.entity = r2.entity → r1.year ≠ r2.year := by
  constructor
  · intro r hr
    obtain ⟨raw, -, -, hyearmem, -, -, hcur, htonum, -⟩ :=
      get_df_provenance ht r hr
    unfold year_ints
    refine List.mem_filterMap.mpr ⟨raw.year,
      List.mem_filter.mpr ⟨hyearmem, ?_⟩, htonum⟩
    rw [hcur]
    rfl
  · unfold Sheet.get_df Sheet.fix_year at ht
    split at ht
    case isFalse => exact Option.noConfusion ht
    case isTrue hall =>
    have hteq := Option.some.inj ht
    subst hteq
    have hrowsP : w.rows.Pairwise fun row1 row2 => ∀ z : ℤ,
        year_key row1.1 = some z → year_key row2.1 = some z → False := by
      have h0 := nodup_filterMap_pairwise (f := year_key)
        (l := w.rows.map fun row => row.1) (by rw [← year_ints_eq]; exact hyd)
      rwa [List.pairwise_map] at h0
    have hentP : w.entities.enum.Pairwise fun a b => a.2 ≠ b.2 := by
      have h1 : (w.entities.enum.map Prod.snd).Pairwise (· ≠ ·) := by
        rw [List.enum_map_snd]
        exact hed
      rwa [List.pairwise_map] at h1
    have hmeltP : (Sheet.melt w).Pairwise fun r1 r2 =>
        r1.entity = r2.entity → ∀ z : ℤ,
          year_key r1.year = some z → year_key r2.year = some z → False := by
      unfold Sheet.melt
      apply pairwise_flatMap
      · intro ie hie
        rw [List.pairwise_map]
        apply hrowsP.imp
        intro row1 row2 hrel
        intro _ z h1 h2
        exact hrel z h1 h2
      · apply hentP.imp
        intro ie1 ie2 hne
        intro x hx y hy hent
        obtain ⟨row1, hrow1, hx1⟩ := List.mem_map.mp hx
        obtain ⟨row2, hrow2, hy1⟩ := List.mem_map.mp hy
        subst hx1
        subst hy1
        exact (hne hent).elim
    have hrd : (Sheet.remove_dead_countries
        (Sheet.dropna (Sheet.melt w))).Pairwise fun r1 r2 =>
        r1.entity = r2.entity → ∀ z : ℤ,
          year_key r1.year = some z → year_key r2.year = some z → False := by
      unfold Sheet.remove_dead_countries Sheet.dropna
      exact List.Pairwise.sublist
        ((List.filter_sublist _).trans (List.filter_sublist _)) hmeltP
    have hfbP : (Sheet.fix_budget (Sheet.melt w)).Pairwise fun b1 b2 =>
        b1.entity = b2.entity → ∀ z : ℤ,
          year_key b1.year = some z → year_key b2.year = some z → False := by
      unfold Sheet.fix_budget
      rw [List.pairwise_map]
      exact hrd.imp fun h => h
    have hkeptP : ((Sheet.fix_budget (Sheet.melt w)).filter
        fun r => !r.year.isCurrent).Pairwise fun b1 b2 =>
        b1.entity = b2.entity → ∀ z : ℤ,
          b1.year.toNumeric = some z → b2.year.toNumeric = some z →
            False := by
      have hf : ((Sheet.fix_budget (Sheet.melt w)).filter
          fun r => !r.year.isCurrent).Pairwise fun b1 b2 =>
          b1.entity = b2.entity → ∀ z : ℤ,
            year_key b1.year = some z → year_key b2.year = some z → False :=
        List.Pairwise.sublist (List.filter_sublist _) hfbP
      apply List.Pairwise.imp_of_mem ?_ hf
      intro a b ha hb hrel hent z h1 h2
      have hca : a.year.isCurrent = false := by
        simpa using (List.mem_filter.mp ha).2
      have hcb : b.year.isCurrent = false := by
        simpa using (List.mem_filter.mp hb).2
      apply hrel hent z
      · show year_key a.year = some z
        unfold year_key
        rw [hca]
        simpa using h1
      · show year_key b.year = some z
        unfold year_key
        rw [hcb]
        simpa using h2
    apply pairwise_filterMap hkeptP
    intro a b x y hrel hfa hfb
    rw [Option.map_eq_some'] at hfa hfb
    obtain ⟨za, hza, hxa⟩ := hfa
    obtain ⟨zb, hzb, hyb⟩ := hfb
    subst hxa
    subst hyb
    intro hent hyeq
    have hzz : za = zb := hyeq
    exact hrel hent za hza (by rw [hzz]; exact hzb)

/-- C8 witness: at the concrete sheet whose labels are 2019, 2020 and
`"2020 Current"`, every year of the table is one of the parsed integers
2019 and 2020 and no entity repeats a year. -/
theorem year_labels_clean_witness :
    (∀ r ∈ currentTable, r.year ∈ year_ints currentSheet) ∧
    currentTable.Pairwise fun r1 r2 =>
      r1.entity = r2.entity → r1.year ≠ r2.year :=
  year_labels_clean currentSheet currentTable rfl (by decide) (by decide)
